import Mathlib

/-!
Verification of the MCP server core of `esp32-mcp-server`
(`main/mcp_server.c`): the JSON-RPC request dispatcher, the tool handlers,
the newline framer of `handle_mcp_connection`, and the LED command channel
values they enqueue.

The embedding mirrors the C source:
* cJSON documents are the inductive `Json`; `getObjectItem` is
  `cJSON_GetObjectItem` (NULL becomes `none`).
* `cJSON_valueint` models the `valueint` field cJSON fills while parsing a
  number (saturated at `INT_MAX`/`INT_MIN`, truncated toward zero) and
  leaves at 0 for every non-number node.
* C doubles are modelled as rationals; the `(uint8_t)` cast of a double is
  truncation toward zero followed by reduction modulo 256 (the behavior of
  the target toolchain), and `%.2f` is `formatF2`.
* Each handler returns a `ToolResult`: the `success` flag stands for the C
  return value (`> 0` success, `-1` error), `body` is the exact contents of
  the response buffer, and `sent` is the list of `led_command_t` values
  passed to `xQueueSend` during the call, in order.
* The framer of `handle_mcp_connection` is `feedChunk`/`feedChunks`: the
  persistent `pending_data` buffer, `strncat` with its capacity bound,
  the `strchr`-driven line loop that skips empty lines, and the `memmove`
  of the remainder.
-/

set_option linter.unusedVariables false

namespace McpServer

/-- JSON values as held by cJSON after a successful parse; numbers carry the
parsed numeric value (a rational standing for the C `double`). -/
inductive Json where
  | null : Json
  | bool : Bool → Json
  | num : ℚ → Json
  | str : String → Json
  | arr : List Json → Json
  | obj : List (String × Json) → Json

/-- Walk of the child list of an object, first field with the given key,
as `cJSON_GetObjectItem` does. -/
def lookupField : List (String × Json) → String → Option Json
  | [], _ => none
  | (k, v) :: rest, key => if k = key then some v else lookupField rest key

/-- Model of `cJSON_GetObjectItem`: NULL (here `none`) on a non-object or a
missing key. -/
def getObjectItem : Json → String → Option Json
  | Json.obj fields, key => lookupField fields key
  | _, _ => none

/-- Truncation of a rational toward zero, the C `(int)` conversion of a
double whose value fits the target type. -/
def ratTrunc (q : ℚ) : Int :=
  if 0 ≤ q.num then q.num / (q.den : Int) else -((-q.num) / (q.den : Int))

def INT_MAX : Int := 2147483647

def INT_MIN : Int := -2147483648

/-- The `valueint` field of a cJSON node: while parsing a number cJSON stores
the value saturated at `INT_MAX`/`INT_MIN` and truncated toward zero;
every other node keeps the zero-initialised field. -/
def cJSON_valueint : Json → Int
  | Json.num v =>
      if (2147483647 : ℚ) ≤ v then INT_MAX
      else if v ≤ (-2147483648 : ℚ) then INT_MIN
      else ratTrunc v
  | _ => 0

/-- The C cast `(uint8_t)` applied to a double in `handle_led_control`:
truncation toward zero, then reduction modulo 256 (target behavior). -/
def toUInt8cast (q : ℚ) : Nat := (Int.emod (ratTrunc q) 256).toNat

/-- Brightness computation `(uint8_t)fmin(100, fmax(0, v))` of
`handle_led_control`: clamp to `[0,100]`, then the narrowing cast. -/
def clampBrightness (q : ℚ) : Nat := (ratTrunc (min 100 (max 0 q))).toNat

/-- Two-digit zero-padded decimal, the fractional part of `%.2f`. -/
def pad2 (k : Nat) : String := if k < 10 then "0" ++ toString k else toString k

/-- The `printf` conversion `%.2f` on the modelled double: round the value
at two decimals (half up; a representable double never sits exactly on a
half tie) and render sign, integer part and two fractional digits. The
rounded integer is `⌊100q + 1/2⌋`, written on the numerator and denominator
of `q` as `⌊(200 num + den) / (2 den)⌋`. -/
def formatF2 (q : ℚ) : String :=
  let n : Int := Int.fdiv (200 * q.num + (q.den : Int)) (2 * (q.den : Int))
  if n < 0 then
    "-" ++ toString ((-n).toNat / 100) ++ "." ++ pad2 ((-n).toNat % 100)
  else
    toString (n.toNat / 100) ++ "." ++ pad2 (n.toNat % 100)

/-- The tag of `led_command_type_t`. -/
inductive LedCmdType where
  | setColor : LedCmdType
  | off : LedCmdType
deriving DecidableEq

/-- The `led_command_t` struct carried by the FreeRTOS queue; the `uint8_t`
fields are naturals already reduced to `[0,255]` by the embedding of the
casts that produce them. -/
structure LedCommand where
  type : LedCmdType
  r : Nat
  g : Nat
  b : Nat
  brightness : Nat
deriving DecidableEq

/-- Outcome of one tool handler: `success` is the sign of the C return value
(`true` for `> 0`, `false` for `-1`), `body` the exact response-buffer text,
`sent` the `led_command_t` values handed to `xQueueSend`, in order. -/
structure ToolResult where
  success : Bool
  body : String
  sent : List LedCommand
deriving DecidableEq

/-- The `LED_CMD_OFF` command built by `handle_led_control`: the struct is
zero-initialised, only `type` is set. -/
def ledOffCmd : LedCommand := ⟨LedCmdType.off, 0, 0, 0, 0⟩

/-- The command `handle_led_control` enqueues on its color path. -/
def ledSetColorCmd (r g b brightness : Nat) : LedCommand :=
  ⟨LedCmdType.setColor, r, g, b, brightness⟩

/-- Status command enqueued by `mcp_server_task` when a client connects
(green, brightness 20). -/
def clientConnectedCmd : LedCommand := ⟨LedCmdType.setColor, 0, 255, 0, 20⟩

/-- Status command enqueued by `mcp_server_task` when the client disconnects
(blue, brightness 20). -/
def clientDisconnectedCmd : LedCommand := ⟨LedCmdType.setColor, 0, 0, 255, 20⟩

/-- Fixed RGB triples of the seven named non-off colors of
`handle_led_control`, in source order; `none` for any other string. -/
def colorTriple (s : String) : Option (Nat × Nat × Nat) :=
  if s = "red" then some (255, 0, 0)
  else if s = "green" then some (0, 255, 0)
  else if s = "blue" then some (0, 0, 255)
  else if s = "yellow" then some (255, 255, 0)
  else if s = "magenta" then some (255, 0, 255)
  else if s = "cyan" then some (0, 255, 255)
  else if s = "white" then some (255, 255, 255)
  else none

/-- One RGB component of the custom path of `handle_led_control`: a numeric
field goes through the `(uint8_t)` cast, anything else leaves the default
255 in place. -/
def ledRgbComponent (args : Json) (key : String) : Nat :=
  match getObjectItem args key with
  | some (Json.num q) => toUInt8cast q
  | _ => 255

/-- The brightness of `handle_led_control`: a numeric `brightness` field is
clamped to `[0,100]`, anything else leaves the default 20. -/
def ledBrightness (args : Json) : Nat :=
  match getObjectItem args "brightness" with
  | some (Json.num q) => clampBrightness q
  | _ => 20

/-- Success body of the set-color path of `handle_led_control`
(`LED set to RGB(%d, %d, %d) with %d%% brightness`). -/
def ledSetBody (r g b brightness : Nat) : String :=
  "\x7b\"content\":[\x7b\"type\":\"text\",\"text\":\"LED set to RGB(" ++ toString r ++
    ", " ++ toString g ++ ", " ++ toString b ++ ") with " ++ toString brightness ++
    "% brightness\"\x7d]\x7d"

def ledOffBody : String :=
  "\x7b\"content\":[\x7b\"type\":\"text\",\"text\":\"LED turned off\"\x7d]\x7d"

def ledArgsRequiredBody : String :=
  "\x7b\"code\":-32602,\"message\":\"LED control requires arguments\"\x7d"

/-- Model of `handle_led_control`: the `color == "off"` short circuit, the
seven named colors, the custom RGB path with per-component defaults, the
brightness clamp, and exactly one `xQueueSend` on every successful path. -/
def handle_led_control (arguments : Option Json) : ToolResult :=
  match arguments with
  | none => ⟨false, ledArgsRequiredBody, []⟩
  | some args =>
    match getObjectItem args "color" with
    | some (Json.str s) =>
      if s = "off" then ⟨true, ledOffBody, [ledOffCmd]⟩
      else
        match colorTriple s with
        | some (r, g, b) =>
            ⟨true, ledSetBody r g b (ledBrightness args),
              [ledSetColorCmd r g b (ledBrightness args)]⟩
        | none =>
            ⟨true,
              ledSetBody (ledRgbComponent args "r") (ledRgbComponent args "g")
                (ledRgbComponent args "b") (ledBrightness args),
              [ledSetColorCmd (ledRgbComponent args "r") (ledRgbComponent args "g")
                (ledRgbComponent args "b") (ledBrightness args)]⟩
    | _ =>
        ⟨true,
          ledSetBody (ledRgbComponent args "r") (ledRgbComponent args "g")
            (ledRgbComponent args "b") (ledBrightness args),
          [ledSetColorCmd (ledRgbComponent args "r") (ledRgbComponent args "g")
            (ledRgbComponent args "b") (ledBrightness args)]⟩

def wifiDetailedBody : String :=
  "\x7b\"content\":[\x7b\"type\":\"text\",\"text\":\"WiFi Status (Detailed):\\n- Connected: true\\n- IP: 192.168.1.100\\n- RSSI: -45 dBm\\n- SSID: MyWiFiNetwork\\n- Channel: 6\"\x7d]\x7d"

def wifiBasicBody : String :=
  "\x7b\"content\":[\x7b\"type\":\"text\",\"text\":\"WiFi Status:\\n- Connected: true\\n- IP: 192.168.1.100\"\x7d]\x7d"

/-- Model of `handle_wifi_status`: `detailed` is honoured only when present
and boolean; the handler never fails. -/
def handle_wifi_status (arguments : Option Json) : ToolResult :=
  let detailed : Bool :=
    match arguments with
    | some args =>
      match getObjectItem args "detailed" with
      | some (Json.bool b) => b
      | _ => false
    | none => false
  if detailed then ⟨true, wifiDetailedBody, []⟩ else ⟨true, wifiBasicBody, []⟩

def addArgsRequiredBody : String :=
  "\x7b\"code\":-32602,\"message\":\"Addition requires arguments\"\x7d"

def mulArgsRequiredBody : String :=
  "\x7b\"code\":-32602,\"message\":\"Multiplication requires arguments\"\x7d"

def bothParamsRequiredBody : String :=
  "\x7b\"code\":-32602,\"message\":\"Both \x27a\x27 and \x27b\x27 parameters required\"\x7d"

/-- Success body of `handle_compute_add` (`%.2f + %.2f = %.2f`). -/
def computeAddBody (a b : ℚ) : String :=
  "\x7b\"content\":[\x7b\"type\":\"text\",\"text\":\"" ++ formatF2 a ++ " + " ++
    formatF2 b ++ " = " ++ formatF2 (a + b) ++ "\"\x7d]\x7d"

/-- Success body of `handle_compute_multiply` (`%.2f Ã— %.2f = %.2f`, the
separator reproduced byte for byte from the source). -/
def computeMulBody (a b : ℚ) : String :=
  "\x7b\"content\":[\x7b\"type\":\"text\",\"text\":\"" ++ formatF2 a ++ " Ã— " ++
    formatF2 b ++ " = " ++ formatF2 (a * b) ++ "\"\x7d]\x7d"

/-- Model of `handle_compute_add`: both `a` and `b` must be present and
numeric, else `-32602`; the sum is reported through `%.2f`. -/
def handle_compute_add (arguments : Option Json) : ToolResult :=
  match arguments with
  | none => ⟨false, addArgsRequiredBody, []⟩
  | some args =>
    match getObjectItem args "a", getObjectItem args "b" with
    | some (Json.num a), some (Json.num b) => ⟨true, computeAddBody a b, []⟩
    | _, _ => ⟨false, bothParamsRequiredBody, []⟩

/-- Model of `handle_compute_multiply`, same validation as addition. -/
def handle_compute_multiply (arguments : Option Json) : ToolResult :=
  match arguments with
  | none => ⟨false, mulArgsRequiredBody, []⟩
  | some args =>
    match getObjectItem args "a", getObjectItem args "b" with
    | some (Json.num a), some (Json.num b) => ⟨true, computeMulBody a b, []⟩
    | _, _ => ⟨false, bothParamsRequiredBody, []⟩

def invalidParamsBody : String :=
  "\x7b\"code\":-32602,\"message\":\"Invalid params\"\x7d"

def missingToolNameBody : String :=
  "\x7b\"code\":-32602,\"message\":\"Missing tool name\"\x7d"

def toolNotFoundBody : String :=
  "\x7b\"code\":-32601,\"message\":\"Tool not found\"\x7d"

/-- Model of `handle_tools_call`: NULL params, then a missing or non-string
`name`, then the string-compare cascade over the four registered tools,
each handler receiving `params.arguments`. -/
def handle_tools_call (params : Option Json) : ToolResult :=
  match params with
  | none => ⟨false, invalidParamsBody, []⟩
  | some p =>
    match getObjectItem p "name" with
    | some (Json.str n) =>
      if n = "wifi_status" then handle_wifi_status (getObjectItem p "arguments")
      else if n = "led_control" then handle_led_control (getObjectItem p "arguments")
      else if n = "compute_add" then handle_compute_add (getObjectItem p "arguments")
      else if n = "compute_multiply" then handle_compute_multiply (getObjectItem p "arguments")
      else ⟨false, toolNotFoundBody, []⟩
    | _ => ⟨false, missingToolNameBody, []⟩

def initializeBody : String :=
  "\x7b\"protocolVersion\":\"2024-11-05\",\"capabilities\":\x7b\"tools\":\x7b\"listChanged\":false\x7d\x7d,\"serverInfo\":\x7b\"name\":\"esp32-s3-mcp\",\"version\":\"0.1.0\"\x7d\x7d"

def toolsListBody : String :=
  "\x7b\"tools\":[\x7b\"name\":\"wifi_status\",\"description\":\"Get WiFi status\",\"inputSchema\":\x7b\"type\":\"object\",\"properties\":\x7b\"detailed\":\x7b\"type\":\"boolean\"\x7d\x7d\x7d\x7d,\x7b\"name\":\"led_control\",\"description\":\"Control LED\",\"inputSchema\":\x7b\"type\":\"object\",\"properties\":\x7b\"color\":\x7b\"type\":\"string\",\"enum\":[\"red\",\"green\",\"blue\",\"yellow\",\"magenta\",\"cyan\",\"white\",\"off\"]\x7d,\"r\":\x7b\"type\":\"integer\",\"minimum\":0,\"maximum\":255\x7d,\"g\":\x7b\"type\":\"integer\",\"minimum\":0,\"maximum\":255\x7d,\"b\":\x7b\"type\":\"integer\",\"minimum\":0,\"maximum\":255\x7d,\"brightness\":\x7b\"type\":\"integer\",\"minimum\":0,\"maximum\":100\x7d\x7d\x7d\x7d,\x7b\"name\":\"compute_add\",\"description\":\"Add numbers\",\"inputSchema\":\x7b\"type\":\"object\",\"properties\":\x7b\"a\":\x7b\"type\":\"number\"\x7d,\"b\":\x7b\"type\":\"number\"\x7d\x7d,\"required\":[\"a\",\"b\"]\x7d\x7d,\x7b\"name\":\"compute_multiply\",\"description\":\"Multiply numbers\",\"inputSchema\":\x7b\"type\":\"object\",\"properties\":\x7b\"a\":\x7b\"type\":\"number\"\x7d,\"b\":\x7b\"type\":\"number\"\x7d\x7d,\"required\":[\"a\",\"b\"]\x7d\x7d]\x7d"

def methodNotFoundBody : String :=
  "\x7b\"code\":-32601,\"message\":\"Method not found\"\x7d"

def parseErrorBody : String :=
  "\x7b\"code\":-32700,\"message\":\"Parse error\"\x7d"

/-- The `id` slot of an emitted envelope: the literal `null` of the
parse-error template, or the `%d` rendering of `id->valueint`. -/
inductive RespId where
  | null : RespId
  | num : Int → RespId
deriving DecidableEq

/-- One emitted JSON-RPC response before serialisation: the `id` slot, which
of the two `snprintf` templates was used (`success` true for the `result`
template), and the embedded result or error text. -/
structure Envelope where
  id : RespId
  success : Bool
  body : String
deriving DecidableEq

/-- Serialisation of an envelope, byte for byte the `snprintf` templates of
`handle_mcp_request` (and the fixed parse-error string). -/
def serializeEnvelope (e : Envelope) : String :=
  "\x7b\"jsonrpc\":\"2.0\",\"id\":" ++
    (match e.id with | RespId.null => "null" | RespId.num n => toString n) ++
    (if e.success then ",\"result\":" else ",\"error\":") ++ e.body ++ "\x7d"

/-- The envelope id viewed as a JSON value, for comparison with the id of
the request. -/
def respIdAsJson : RespId → Json
  | RespId.null => Json.null
  | RespId.num n => Json.num n

/-- Model of `handle_mcp_request` on one framed message. The argument is the
result of `cJSON_Parse` (`none` for a parse failure); the first component is
the emitted response (`none` when the function returns 0 and nothing is
sent), the second the `led_command_t` values enqueued while handling. -/
def handle_mcp_request (doc : Option Json) : Option Envelope × List LedCommand :=
  match doc with
  | none => (some ⟨RespId.null, false, parseErrorBody⟩, [])
  | some json =>
    match getObjectItem json "method" with
    | some (Json.str m) =>
      match getObjectItem json "id" with
      | none => (none, [])
      | some Json.null => (none, [])
      | some idItem =>
        let tr : ToolResult :=
          if m = "initialize" then ⟨true, initializeBody, []⟩
          else if m = "tools/list" then ⟨true, toolsListBody, []⟩
          else if m = "tools/call" then handle_tools_call (getObjectItem json "params")
          else ⟨false, methodNotFoundBody, []⟩
        (some ⟨RespId.num (cJSON_valueint idItem), tr.success, tr.body⟩, tr.sent)
    | _ => (none, [])

def MCP_BUFFER_SIZE : Nat := 4096

/-- The line loop of `handle_mcp_connection` over the buffered bytes: `acc`
is the data between `line_start` and the cursor. On a line feed a non-empty
accumulated line is dispatched (empty lines are skipped); when the data is
exhausted the accumulated bytes are the remainder kept by the `memmove`.
Returns the dispatched lines in order, and the remainder. -/
def framerAux : List Char → List Char → List (List Char) × List Char
  | acc, [] => ([], acc)
  | acc, c :: rest =>
    if c = '\n' then
      let p := framerAux [] rest
      (if acc = [] then p.1 else acc :: p.1, p.2)
    else framerAux (acc ++ [c]) rest

/-- Split of the whole pending buffer into dispatched lines and remainder. -/
def processPending (buf : List Char) : List (List Char) × List Char :=
  framerAux [] buf

/-- One iteration of the receive loop of `handle_mcp_connection`: `strncat`
appends at most `MCP_BUFFER_SIZE - 1 - pending.length` bytes of the new
chunk to the pending buffer, then the line loop runs. -/
def feedChunk (pending chunk : List Char) : List (List Char) × List Char :=
  processPending (pending ++ chunk.take (MCP_BUFFER_SIZE - 1 - pending.length))

/-- The receive loop over a sequence of transport reads, starting from a
pending buffer: all dispatched lines in order, and the final remainder. -/
def feedChunks : List Char → List (List Char) → List (List Char) × List Char
  | pending, [] => ([], pending)
  | pending, c :: cs =>
    let p := feedChunk pending c
    let q := feedChunks p.2 cs
    (p.1 ++ q.1, q.2)

/-! Helper lemmas shared by the claim theorems. -/

lemma ratTrunc_intCast (n : Int) : ratTrunc ((n : ℚ)) = n := by
  simp only [ratTrunc, Rat.num_intCast, Rat.den_intCast, Int.cast_one, Nat.cast_one]
  split <;> omega

lemma cJSON_valueint_intCast (n : Int) (h1 : INT_MIN ≤ n) (h2 : n ≤ INT_MAX) :
    cJSON_valueint (Json.num (n : ℚ)) = n := by
  simp only [INT_MIN] at h1
  simp only [INT_MAX] at h2
  simp only [cJSON_valueint]
  by_cases hA : (2147483647 : ℚ) ≤ (n : ℚ)
  · rw [if_pos hA]
    have hA2 : (2147483647 : Int) ≤ n := by exact_mod_cast hA
    simp only [INT_MAX]
    omega
  · rw [if_neg hA]
    by_cases hB : ((n : ℚ)) ≤ (-2147483648 : ℚ)
    · rw [if_pos hB]
      have hB2 : n ≤ (-2147483648 : Int) := by exact_mod_cast hB
      simp only [INT_MIN]
      omega
    · rw [if_neg hB]
      exact ratTrunc_intCast n

/-- Every response emitted for a successfully parsed document carries the
`valueint` of the `id` field the document was found to have. -/
lemma response_id_is_valueint (doc : Json) (e : Envelope)
    (he : (handle_mcp_request (some doc)).1 = some e) :
    ∃ idItem, getObjectItem doc "id" = some idItem
      ∧ e.id = RespId.num (cJSON_valueint idItem) := by
  rcases hm : getObjectItem doc "method" with _ | mj
  · simp [handle_mcp_request, hm] at he
  · cases mj with
    | str m =>
      rcases hid : getObjectItem doc "id" with _ | idj
      · simp [handle_mcp_request, hm, hid] at he
      · cases idj
        case null => simp [handle_mcp_request, hm, hid] at he
        all_goals
          refine ⟨_, rfl, ?_⟩
          simp [handle_mcp_request, hm, hid] at he
          rw [← he]
    | null => simp [handle_mcp_request, hm] at he
    | bool b => simp [handle_mcp_request, hm] at he
    | num q => simp [handle_mcp_request, hm] at he
    | arr xs => simp [handle_mcp_request, hm] at he
    | obj fs => simp [handle_mcp_request, hm] at he

/-! Claim theorems. -/

/-- C2: a parsed request whose `id` field is absent or JSON null produces no
response at all from `handle_mcp_request`, whatever the method or the
arguments are. -/
theorem notification_no_response (doc : Json)
    (h : getObjectItem doc "id" = none ∨ getObjectItem doc "id" = some Json.null) :
    (handle_mcp_request (some doc)).1 = none := by
  rcases hm : getObjectItem doc "method" with _ | mj
  · simp [handle_mcp_request, hm]
  · cases mj with
    | str m => rcases h with h | h <;> simp [handle_mcp_request, hm, h]
    | null => simp [handle_mcp_request, hm]
    | bool b => simp [handle_mcp_request, hm]
    | num q => simp [handle_mcp_request, hm]
    | arr xs => simp [handle_mcp_request, hm]
    | obj fs => simp [handle_mcp_request, hm]

/-- Witness for C2 at the concrete notification
`{"method":"notifications/initialized"}` (no `id` at all). -/
theorem notification_no_response_witness :
    (handle_mcp_request (some (Json.obj [("method", Json.str "notifications/initialized")]))).1
      = none :=
  notification_no_response (Json.obj [("method", Json.str "notifications/initialized")])
    (Or.inl rfl)

/-- C8: a parsed document with no `method` field, or a `method` that is not
a string, is silently dropped: no response and no enqueued command, whether
or not an `id` is present. -/
theorem missing_method_drop (doc : Json)
    (h : getObjectItem doc "method" = none
      ∨ ∀ s, getObjectItem doc "method" ≠ some (Json.str s)) :
    handle_mcp_request (some doc) = (none, []) := by
  rcases hm : getObjectItem doc "method" with _ | mj
  · simp [handle_mcp_request, hm]
  · cases mj with
    | str m =>
      rcases h with h | h
      · rw [hm] at h
        exact absurd h (by simp)
      · exact absurd hm (h m)
    | null => simp [handle_mcp_request, hm]
    | bool b => simp [handle_mcp_request, hm]
    | num q => simp [handle_mcp_request, hm]
    | arr xs => simp [handle_mcp_request, hm]
    | obj fs => simp [handle_mcp_request, hm]

/-- Witness for C8 at the concrete document `{"id":1}` (an `id` is present,
the `method` field is absent). -/
theorem missing_method_drop_witness :
    handle_mcp_request (some (Json.obj [("id", Json.num 1)])) = (none, []) :=
  missing_method_drop (Json.obj [("id", Json.num 1)]) (Or.inl rfl)

/-- C7: a message that fails to parse yields the fixed envelope with `id`
null, code `-32700` and message `Parse error` (serialised exactly as the C
constant), and this is the only response ever emitted whose `id` slot is
null. -/
theorem parse_error_response :
    handle_mcp_request none = (some ⟨RespId.null, false, parseErrorBody⟩, [])
    ∧ serializeEnvelope ⟨RespId.null, false, parseErrorBody⟩
        = "\x7b\"jsonrpc\":\"2.0\",\"id\":null,\"error\":\x7b\"code\":-32700,\"message\":\"Parse error\"\x7d\x7d"
    ∧ ∀ (doc : Json) (e : Envelope),
        (handle_mcp_request (some doc)).1 = some e → e.id ≠ RespId.null := by
  refine ⟨rfl, rfl, ?_⟩
  intro doc e he hnull
  obtain ⟨idItem, _, hid⟩ := response_id_is_valueint doc e he
  rw [hnull] at hid
  exact RespId.noConfusion hid

/-- Witness for C7: the parse-error envelope at the failed parse, and a
response with a numeric id carried by the concrete request
`{"method":"initialize","id":7}`. -/
theorem parse_error_response_witness :
    handle_mcp_request none = (some ⟨RespId.null, false, parseErrorBody⟩, [])
    ∧ (⟨RespId.num 7, true, initializeBody⟩ : Envelope).id ≠ RespId.null :=
  ⟨parse_error_response.1,
    parse_error_response.2.2
      (Json.obj [("method", Json.str "initialize"), ("id", Json.num 7)])
      ⟨RespId.num 7, true, initializeBody⟩ rfl⟩

lemma ratTrunc_eq_floor (q : ℚ) (h : 0 ≤ q) : ratTrunc q = ⌊q⌋ := by
  rw [ratTrunc, if_pos (Rat.num_nonneg.mpr h), Rat.floor_def]

lemma clampBrightness_le (q : ℚ) : clampBrightness q ≤ 100 := by
  have hv0 : (0 : ℚ) ≤ min 100 (max 0 q) := le_min (by norm_num) (le_max_left 0 q)
  have hv100 : min 100 (max 0 q) ≤ 100 := min_le_left _ _
  unfold clampBrightness
  rw [ratTrunc_eq_floor _ hv0]
  have hfl : ⌊min 100 (max 0 q)⌋ ≤ (100 : Int) := by
    exact_mod_cast le_trans (Int.floor_le (min 100 (max 0 q))) hv100
  omega

lemma ledBrightness_le (args : Json) : ledBrightness args ≤ 100 := by
  unfold ledBrightness
  rcases hb : getObjectItem args "brightness" with _ | bj
  · simp
  · cases bj with
    | num q => exact clampBrightness_le q
    | null => simp
    | bool b => simp
    | str s => simp
    | arr xs => simp
    | obj fs => simp

/-- When `color` is absent, non-string, or an unrecognised string, the
handler takes the individual-RGB path of the source. -/
lemma led_control_custom (args : Json)
    (h : ∀ s, getObjectItem args "color" = some (Json.str s) →
      s ≠ "off" ∧ colorTriple s = none) :
    handle_led_control (some args)
      = ⟨true,
          ledSetBody (ledRgbComponent args "r") (ledRgbComponent args "g")
            (ledRgbComponent args "b") (ledBrightness args),
          [ledSetColorCmd (ledRgbComponent args "r") (ledRgbComponent args "g")
            (ledRgbComponent args "b") (ledBrightness args)]⟩ := by
  rcases hc : getObjectItem args "color" with _ | cj
  · simp [handle_led_control, hc]
  · cases cj with
    | str s =>
      obtain ⟨hs, ht⟩ := h s hc
      simp [handle_led_control, hc, hs, ht]
    | null => simp [handle_led_control, hc]
    | bool b => simp [handle_led_control, hc]
    | num q => simp [handle_led_control, hc]
    | arr xs => simp [handle_led_control, hc]
    | obj fs => simp [handle_led_control, hc]

/-- C1 fails on the code: `handle_mcp_request` prints `id->valueint` with
`%d`, and cJSON leaves `valueint` at 0 for a string node. The request
`{"jsonrpc":"2.0","id":"abc","method":"tools/list"}` has the string id
`"abc"`, yet the emitted envelope carries the number 0 — not the same value
and not even the same type. -/
theorem id_echo_counterexample :
    (handle_mcp_request (some (Json.obj [("jsonrpc", Json.str "2.0"),
        ("id", Json.str "abc"), ("method", Json.str "tools/list")]))).1
      = some ⟨RespId.num 0, true, toolsListBody⟩
    ∧ getObjectItem (Json.obj [("jsonrpc", Json.str "2.0"),
        ("id", Json.str "abc"), ("method", Json.str "tools/list")]) "id"
      = some (Json.str "abc")
    ∧ respIdAsJson (RespId.num 0) ≠ Json.str "abc" :=
  ⟨rfl, rfl, fun h => Json.noConfusion h⟩

/-- C1 (amended): the envelope id is always the integer `valueint` of the
request id. A numeric id whose value is an integer within the `int` range is
echoed exactly (same number); a string id is replaced by the number 0. -/
theorem id_echo_amended (doc : Json) (e : Envelope)
    (he : (handle_mcp_request (some doc)).1 = some e) :
    (∀ n : Int, getObjectItem doc "id" = some (Json.num (n : ℚ)) →
      INT_MIN ≤ n → n ≤ INT_MAX → e.id = RespId.num n)
    ∧ (∀ s : String, getObjectItem doc "id" = some (Json.str s) →
      e.id = RespId.num 0) := by
  constructor
  · intro n hid h1 h2
    obtain ⟨idItem, hid2, hval⟩ := response_id_is_valueint doc e he
    rw [hid] at hid2
    obtain rfl := Option.some.inj hid2
    rw [hval, cJSON_valueint_intCast n h1 h2]
  · intro s hid
    obtain ⟨idItem, hid2, hval⟩ := response_id_is_valueint doc e he
    rw [hid] at hid2
    obtain rfl := Option.some.inj hid2
    rw [hval]
    rfl

/-- Witness for the amended C1 at `{"method":"initialize","id":7}`: the
response id is the number 7. -/
theorem id_echo_amended_witness :
    (⟨RespId.num 7, true, initializeBody⟩ : Envelope).id = RespId.num 7 :=
  (id_echo_amended
      (Json.obj [("method", Json.str "initialize"), ("id", Json.num ((7 : Int) : ℚ))])
      ⟨RespId.num 7, true, initializeBody⟩ rfl).1 7 rfl (by decide) (by decide)

/-- C6: `handle_tools_call` validates in order — absent `params` gives the
`-32602` body `Invalid params`; an absent or non-string `params.name` gives
the `-32602` body `Missing tool name`; a name matching none of the four
registered tools gives the `-32601` body `Tool not found`; and each
registered name dispatches to its handler applied to `params.arguments`. -/
theorem tools_call_validation :
    handle_tools_call none = ⟨false, invalidParamsBody, []⟩
    ∧ (∀ p : Json, getObjectItem p "name" = none →
        handle_tools_call (some p) = ⟨false, missingToolNameBody, []⟩)
    ∧ (∀ (p j : Json), getObjectItem p "name" = some j → (∀ s, j ≠ Json.str s) →
        handle_tools_call (some p) = ⟨false, missingToolNameBody, []⟩)
    ∧ (∀ (p : Json) (n : String), getObjectItem p "name" = some (Json.str n) →
        n ≠ "wifi_status" → n ≠ "led_control" → n ≠ "compute_add" → n ≠ "compute_multiply" →
        handle_tools_call (some p) = ⟨false, toolNotFoundBody, []⟩)
    ∧ (∀ p : Json, getObjectItem p "name" = some (Json.str "wifi_status") →
        handle_tools_call (some p) = handle_wifi_status (getObjectItem p "arguments"))
    ∧ (∀ p : Json, getObjectItem p "name" = some (Json.str "led_control") →
        handle_tools_call (some p) = handle_led_control (getObjectItem p "arguments"))
    ∧ (∀ p : Json, getObjectItem p "name" = some (Json.str "compute_add") →
        handle_tools_call (some p) = handle_compute_add (getObjectItem p "arguments"))
    ∧ (∀ p : Json, getObjectItem p "name" = some (Json.str "compute_multiply") →
        handle_tools_call (some p) = handle_compute_multiply (getObjectItem p "arguments")) := by
  refine ⟨rfl, ?_, ?_, ?_, ?_, ?_, ?_, ?_⟩
  · intro p h
    simp [handle_tools_call, h]
  · intro p j h hns
    cases j with
    | str s => exact absurd rfl (hns s)
    | null => simp [handle_tools_call, h]
    | bool b => simp [handle_tools_call, h]
    | num q => simp [handle_tools_call, h]
    | arr xs => simp [handle_tools_call, h]
    | obj fs => simp [handle_tools_call, h]
  · intro p n h h1 h2 h3 h4
    simp [handle_tools_call, h, h1, h2, h3, h4]
  · intro p h
    simp [handle_tools_call, h]
  · intro p h
    simp [handle_tools_call, h]
  · intro p h
    simp [handle_tools_call, h]
  · intro p h
    simp [handle_tools_call, h]

/-- Witness for C6: the unknown name `"nope"` yields the `-32601` Tool not
found body, and the registered name `"led_control"` dispatches to
`handle_led_control` with the supplied arguments object. -/
theorem tools_call_validation_witness :
    handle_tools_call (some (Json.obj [("name", Json.str "nope")]))
      = ⟨false, toolNotFoundBody, []⟩
    ∧ handle_tools_call (some (Json.obj [("name", Json.str "led_control"),
        ("arguments", Json.obj [("color", Json.str "off")])]))
      = handle_led_control (some (Json.obj [("color", Json.str "off")])) :=
  ⟨tools_call_validation.2.2.2.1 (Json.obj [("name", Json.str "nope")]) "nope" rfl
      (by decide) (by decide) (by decide) (by decide),
    tools_call_validation.2.2.2.2.2.1
      (Json.obj [("name", Json.str "led_control"),
        ("arguments", Json.obj [("color", Json.str "off")])]) rfl⟩

/-- C9: `handle_compute_add` answers the `-32602` bodies when `arguments` is
absent or when `a` or `b` is absent or non-numeric, and on success reports
`a`, `b` and `a + b` through `%.2f`; at `a = 2`, `b = 3` the text is
exactly `2.00 + 3.00 = 5.00`. -/
theorem compute_add_contract :
    handle_compute_add none = ⟨false, addArgsRequiredBody, []⟩
    ∧ (∀ args : Json, (∀ q : ℚ, getObjectItem args "a" ≠ some (Json.num q)) →
        handle_compute_add (some args) = ⟨false, bothParamsRequiredBody, []⟩)
    ∧ (∀ args : Json, (∀ q : ℚ, getObjectItem args "b" ≠ some (Json.num q)) →
        handle_compute_add (some args) = ⟨false, bothParamsRequiredBody, []⟩)
    ∧ (∀ (args : Json) (a b : ℚ), getObjectItem args "a" = some (Json.num a) →
        getObjectItem args "b" = some (Json.num b) →
        handle_compute_add (some args) = ⟨true, computeAddBody a b, []⟩)
    ∧ handle_compute_add (some (Json.obj [("a", Json.num 2), ("b", Json.num 3)]))
        = ⟨true, "\x7b\"content\":[\x7b\"type\":\"text\",\"text\":\"2.00 + 3.00 = 5.00\"\x7d]\x7d", []⟩ := by
  refine ⟨rfl, ?_, ?_, ?_, ?_⟩
  · intro args h
    rcases ha : getObjectItem args "a" with _ | aj
    · rcases hb : getObjectItem args "b" with _ | bj
      · simp [handle_compute_add, ha, hb]
      · cases bj <;> simp [handle_compute_add, ha, hb]
    · cases aj with
      | num q => exact absurd ha (h q)
      | null =>
        rcases hb : getObjectItem args "b" with _ | bj
        · simp [handle_compute_add, ha, hb]
        · cases bj <;> simp [handle_compute_add, ha, hb]
      | bool b =>
        rcases hb : getObjectItem args "b" with _ | bj
        · simp [handle_compute_add, ha, hb]
        · cases bj <;> simp [handle_compute_add, ha, hb]
      | str s =>
        rcases hb : getObjectItem args "b" with _ | bj
        · simp [handle_compute_add, ha, hb]
        · cases bj <;> simp [handle_compute_add, ha, hb]
      | arr xs =>
        rcases hb : getObjectItem args "b" with _ | bj
        · simp [handle_compute_add, ha, hb]
        · cases bj <;> simp [handle_compute_add, ha, hb]
      | obj fs =>
        rcases hb : getObjectItem args "b" with _ | bj
        · simp [handle_compute_add, ha, hb]
        · cases bj <;> simp [handle_compute_add, ha, hb]
  · intro args h
    rcases ha : getObjectItem args "a" with _ | aj
    · rcases hb : getObjectItem args "b" with _ | bj
      · simp [handle_compute_add, ha, hb]
      · cases bj <;> simp [handle_compute_add, ha, hb]
    · rcases hb : getObjectItem args "b" with _ | bj
      · cases aj <;> simp [handle_compute_add, ha, hb]
      · cases bj with
        | num q => exact absurd hb (h q)
        | null => cases aj <;> simp [handle_compute_add, ha, hb]
        | bool b2 => cases aj <;> simp [handle_compute_add, ha, hb]
        | str s => cases aj <;> simp [handle_compute_add, ha, hb]
        | arr xs => cases aj <;> simp [handle_compute_add, ha, hb]
        | obj fs => cases aj <;> simp [handle_compute_add, ha, hb]
  · intro args a b ha hb
    simp [handle_compute_add, ha, hb]
  · have hbody : computeAddBody 2 3
        = "\x7b\"content\":[\x7b\"type\":\"text\",\"text\":\"2.00 + 3.00 = 5.00\"\x7d]\x7d" := by
      have h5 : (2 : ℚ) + 3 = 5 := by norm_num
      unfold computeAddBody
      rw [h5]
      rfl
    rw [← hbody]
    rfl

/-- Witness for C9: missing `a` (only `b` supplied) gives the `-32602`
body, and `a = 2`, `b = 3` gives the exact success text through the
general success conjunct. -/
theorem compute_add_contract_witness :
    handle_compute_add (some (Json.obj [("b", Json.num 1)]))
      = ⟨false, bothParamsRequiredBody, []⟩
    ∧ handle_compute_add (some (Json.obj [("a", Json.num 2), ("b", Json.num 3)]))
      = ⟨true, computeAddBody 2 3, []⟩ :=
  ⟨compute_add_contract.2.1 (Json.obj [("b", Json.num 1)])
      (fun q h => Option.noConfusion h),
    compute_add_contract.2.2.2.1 (Json.obj [("a", Json.num 2), ("b", Json.num 3)])
      2 3 rfl rfl⟩

/-- C3: `handle_led_control` with arguments present follows the source's
resolution order — `color = "off"` enqueues exactly one Off command and
returns, ignoring every other field; a named non-off color uses its fixed
triple; otherwise the supplied `r`, `g`, `b` are used individually, each
defaulting to 255 when absent; and every successful invocation enqueues
exactly one command. -/
theorem led_control_resolution (args : Json) :
    (getObjectItem args "color" = some (Json.str "off") →
      handle_led_control (some args) = ⟨true, ledOffBody, [ledOffCmd]⟩)
    ∧ (∀ (s : String) (r g b : Nat), getObjectItem args "color" = some (Json.str s) →
        colorTriple s = some (r, g, b) →
        handle_led_control (some args)
          = ⟨true, ledSetBody r g b (ledBrightness args),
              [ledSetColorCmd r g b (ledBrightness args)]⟩)
    ∧ ((∀ s, getObjectItem args "color" = some (Json.str s) →
          s ≠ "off" ∧ colorTriple s = none) →
        handle_led_control (some args)
          = ⟨true,
              ledSetBody (ledRgbComponent args "r") (ledRgbComponent args "g")
                (ledRgbComponent args "b") (ledBrightness args),
              [ledSetColorCmd (ledRgbComponent args "r") (ledRgbComponent args "g")
                (ledRgbComponent args "b") (ledBrightness args)]⟩)
    ∧ (∀ key, getObjectItem args key = none → ledRgbComponent args key = 255)
    ∧ (∀ argsOpt : Option Json, (handle_led_control argsOpt).success = true →
        (handle_led_control argsOpt).sent.length = 1) := by
  refine ⟨?_, ?_, ?_, ?_, ?_⟩
  · intro h
    simp [handle_led_control, h]
  · intro s r g b hc ht
    by_cases hs : s = "off"
    · subst hs
      simp [colorTriple] at ht
    · simp [handle_led_control, hc, hs, ht]
  · exact led_control_custom args
  · intro key h
    simp [ledRgbComponent, h]
  · intro argsOpt h
    rcases argsOpt with _ | a
    · simp [handle_led_control] at h
    · rcases hc : getObjectItem a "color" with _ | cj
      · simp [handle_led_control, hc]
      · cases cj with
        | str s =>
          by_cases hs : s = "off"
          · subst hs
            simp [handle_led_control, hc]
          · rcases ht : colorTriple s with _ | rgb
            · simp [handle_led_control, hc, hs, ht]
            · obtain ⟨r, g, b⟩ := rgb
              simp [handle_led_control, hc, hs, ht]
        | null => simp [handle_led_control, hc]
        | bool b => simp [handle_led_control, hc]
        | num q => simp [handle_led_control, hc]
        | arr xs => simp [handle_led_control, hc]
        | obj fs => simp [handle_led_control, hc]

/-- Witness for C3: `color = "off"` with `r`, `g`, `b` also supplied
enqueues exactly one Off command, and `color = "red"` takes the fixed
triple. -/
theorem led_control_resolution_witness :
    handle_led_control (some (Json.obj [("color", Json.str "off"),
        ("r", Json.num 10), ("g", Json.num 20), ("b", Json.num 30)]))
      = ⟨true, ledOffBody, [ledOffCmd]⟩
    ∧ handle_led_control (some (Json.obj [("color", Json.str "red")]))
      = ⟨true, ledSetBody 255 0 0
          (ledBrightness (Json.obj [("color", Json.str "red")])),
          [ledSetColorCmd 255 0 0
            (ledBrightness (Json.obj [("color", Json.str "red")]))]⟩ :=
  ⟨(led_control_resolution (Json.obj [("color", Json.str "off"),
      ("r", Json.num 10), ("g", Json.num 20), ("b", Json.num 30)])).1 rfl,
    (led_control_resolution (Json.obj [("color", Json.str "red")])).2.1
      "red" 255 0 0 rfl rfl⟩

/-- C4: every command enqueued by `handle_led_control` and both
connection-lifecycle status commands carry a brightness in `[0,100]` (the
field is a natural, so only the upper bound is substantive); in particular
`color = "red"` with `brightness = 150` enqueues exactly one
`SetColor{255,0,0,100}` and the response text reports the clamped 100. -/
theorem led_brightness_invariant :
    (∀ (argsOpt : Option Json) (cmd : LedCommand),
        cmd ∈ (handle_led_control argsOpt).sent → cmd.brightness ≤ 100)
    ∧ clientConnectedCmd.brightness ≤ 100
    ∧ clientDisconnectedCmd.brightness ≤ 100
    ∧ handle_led_control (some (Json.obj [("color", Json.str "red"),
        ("brightness", Json.num 150)]))
      = ⟨true, ledSetBody 255 0 0 100, [ledSetColorCmd 255 0 0 100]⟩
    ∧ ledSetBody 255 0 0 100
      = "\x7b\"content\":[\x7b\"type\":\"text\",\"text\":\"LED set to RGB(255, 0, 0) with 100% brightness\"\x7d]\x7d" := by
  refine ⟨?_, by decide, by decide, rfl, rfl⟩
  intro argsOpt cmd hmem
  rcases argsOpt with _ | a
  · simp [handle_led_control] at hmem
  · rcases hc : getObjectItem a "color" with _ | cj
    · simp [handle_led_control, hc] at hmem
      subst hmem
      simpa [ledSetColorCmd] using ledBrightness_le a
    · cases cj with
      | str s =>
        by_cases hs : s = "off"
        · subst hs
          simp [handle_led_control, hc] at hmem
          subst hmem
          decide
        · rcases ht : colorTriple s with _ | rgb
          · simp [handle_led_control, hc, hs, ht] at hmem
            subst hmem
            simpa [ledSetColorCmd] using ledBrightness_le a
          · obtain ⟨r, g, b⟩ := rgb
            simp [handle_led_control, hc, hs, ht] at hmem
            subst hmem
            simpa [ledSetColorCmd] using ledBrightness_le a
      | null =>
        simp [handle_led_control, hc] at hmem
        subst hmem
        simpa [ledSetColorCmd] using ledBrightness_le a
      | bool b =>
        simp [handle_led_control, hc] at hmem
        subst hmem
        simpa [ledSetColorCmd] using ledBrightness_le a
      | num q =>
        simp [handle_led_control, hc] at hmem
        subst hmem
        simpa [ledSetColorCmd] using ledBrightness_le a
      | arr xs =>
        simp [handle_led_control, hc] at hmem
        subst hmem
        simpa [ledSetColorCmd] using ledBrightness_le a
      | obj fs =>
        simp [handle_led_control, hc] at hmem
        subst hmem
        simpa [ledSetColorCmd] using ledBrightness_le a

/-- Witness for C4: the Off command of a concrete off call is within
bounds, discharging the membership hypothesis of the invariant at a
concrete invocation. -/
theorem led_brightness_invariant_witness :
    ledOffCmd.brightness ≤ 100 :=
  led_brightness_invariant.1 (some (Json.obj [("color", Json.str "off")]))
    ledOffCmd (by simp [handle_led_control, getObjectItem, lookupField])

/-- C10: on the individual-RGB path a supplied integer component — `r`,
`g` or `b` alike, the source parses the three fields with the same code —
is neither rejected nor clamped: it passes through the `(uint8_t)` cast,
so the enqueued value is the integer reduced modulo 256, the response text
reports the reduced values, and `r = 300` enqueues 44 (`g = 700` gives
188, `b = -5` gives 251). -/
theorem rgb_cast_mod256 :
    (∀ (args : Json) (key : String) (n : Int),
        getObjectItem args key = some (Json.num (n : ℚ)) →
        ledRgbComponent args key = (Int.emod n 256).toNat)
    ∧ (∀ (args : Json) (r g b : Int),
        (∀ s, getObjectItem args "color" = some (Json.str s) →
          s ≠ "off" ∧ colorTriple s = none) →
        getObjectItem args "r" = some (Json.num (r : ℚ)) →
        getObjectItem args "g" = some (Json.num (g : ℚ)) →
        getObjectItem args "b" = some (Json.num (b : ℚ)) →
        handle_led_control (some args)
          = ⟨true,
              ledSetBody ((Int.emod r 256).toNat) ((Int.emod g 256).toNat)
                ((Int.emod b 256).toNat) (ledBrightness args),
              [ledSetColorCmd ((Int.emod r 256).toNat) ((Int.emod g 256).toNat)
                ((Int.emod b 256).toNat) (ledBrightness args)]⟩)
    ∧ handle_led_control (some (Json.obj [("r", Json.num 300)]))
      = ⟨true, ledSetBody 44 255 255 20, [ledSetColorCmd 44 255 255 20]⟩
    ∧ handle_led_control (some (Json.obj [("r", Json.num 300),
        ("g", Json.num 700), ("b", Json.num (-5))]))
      = ⟨true, ledSetBody 44 188 251 20, [ledSetColorCmd 44 188 251 20]⟩
    ∧ ledSetBody 44 188 251 20
      = "\x7b\"content\":[\x7b\"type\":\"text\",\"text\":\"LED set to RGB(44, 188, 251) with 20% brightness\"\x7d]\x7d" := by
  have hcomp : ∀ (args : Json) (key : String) (n : Int),
      getObjectItem args key = some (Json.num (n : ℚ)) →
      ledRgbComponent args key = (Int.emod n 256).toNat := by
    intro args key n hk
    simp [ledRgbComponent, hk, toUInt8cast, ratTrunc_intCast]
  refine ⟨hcomp, ?_, rfl, rfl, rfl⟩
  intro args r g b h hr hg hb
  rw [led_control_custom args h, hcomp args "r" r hr, hcomp args "g" g hg,
    hcomp args "b" b hb]

/-- Witness for C10: each of the components of the concrete call
`{"r":300,"g":700,"b":-5}` goes through the per-key conjunct, and the whole
call through the full-path conjunct, giving 44, 188 and 251. -/
theorem rgb_cast_mod256_witness :
    ledRgbComponent (Json.obj [("r", Json.num ((300 : Int) : ℚ)),
        ("g", Json.num ((700 : Int) : ℚ)), ("b", Json.num ((-5 : Int) : ℚ))]) "r"
      = (Int.emod 300 256).toNat
    ∧ ledRgbComponent (Json.obj [("r", Json.num ((300 : Int) : ℚ)),
        ("g", Json.num ((700 : Int) : ℚ)), ("b", Json.num ((-5 : Int) : ℚ))]) "g"
      = (Int.emod 700 256).toNat
    ∧ ledRgbComponent (Json.obj [("r", Json.num ((300 : Int) : ℚ)),
        ("g", Json.num ((700 : Int) : ℚ)), ("b", Json.num ((-5 : Int) : ℚ))]) "b"
      = (Int.emod (-5) 256).toNat
    ∧ handle_led_control (some (Json.obj [("r", Json.num ((300 : Int) : ℚ)),
        ("g", Json.num ((700 : Int) : ℚ)), ("b", Json.num ((-5 : Int) : ℚ))]))
      = ⟨true,
          ledSetBody ((Int.emod 300 256).toNat) ((Int.emod 700 256).toNat)
            ((Int.emod (-5) 256).toNat)
            (ledBrightness (Json.obj [("r", Json.num ((300 : Int) : ℚ)),
              ("g", Json.num ((700 : Int) : ℚ)), ("b", Json.num ((-5 : Int) : ℚ))])),
          [ledSetColorCmd ((Int.emod 300 256).toNat) ((Int.emod 700 256).toNat)
            ((Int.emod (-5) 256).toNat)
            (ledBrightness (Json.obj [("r", Json.num ((300 : Int) : ℚ)),
              ("g", Json.num ((700 : Int) : ℚ)), ("b", Json.num ((-5 : Int) : ℚ))]))]⟩ :=
  ⟨rgb_cast_mod256.1 (Json.obj [("r", Json.num ((300 : Int) : ℚ)),
      ("g", Json.num ((700 : Int) : ℚ)), ("b", Json.num ((-5 : Int) : ℚ))]) "r" 300 rfl,
    rgb_cast_mod256.1 (Json.obj [("r", Json.num ((300 : Int) : ℚ)),
      ("g", Json.num ((700 : Int) : ℚ)), ("b", Json.num ((-5 : Int) : ℚ))]) "g" 700 rfl,
    rgb_cast_mod256.1 (Json.obj [("r", Json.num ((300 : Int) : ℚ)),
      ("g", Json.num ((700 : Int) : ℚ)), ("b", Json.num ((-5 : Int) : ℚ))]) "b" (-5) rfl,
    rgb_cast_mod256.2.1 (Json.obj [("r", Json.num ((300 : Int) : ℚ)),
      ("g", Json.num ((700 : Int) : ℚ)), ("b", Json.num ((-5 : Int) : ℚ))]) 300 700 (-5)
      (fun s h => Option.noConfusion h) rfl rfl rfl⟩

/-! Lemmas about the framer. -/

lemma framerAux_no_nl : ∀ (c acc : List Char), '\n' ∉ c →
    framerAux acc c = ([], acc ++ c)
  | [], acc, h => by simp [framerAux]
  | x :: xs, acc, h => by
    have hx : x ≠ '\n' := fun he => h (he ▸ List.mem_cons_self x xs)
    have hxs : '\n' ∉ xs := fun hm => h (List.mem_cons_of_mem x hm)
    simp only [framerAux, if_neg hx]
    rw [framerAux_no_nl xs (acc ++ [x]) hxs]
    simp

lemma framerAux_split : ∀ (a acc b : List Char), '\n' ∉ a →
    framerAux acc (a ++ '\n' :: b)
      = (if acc ++ a = [] then (framerAux [] b).1 else (acc ++ a) :: (framerAux [] b).1,
         (framerAux [] b).2)
  | [], acc, b, h => by
    simp only [List.nil_append, framerAux, if_pos rfl]
    simp
  | x :: xs, acc, b, h => by
    have hx : x ≠ '\n' := fun he => h (he ▸ List.mem_cons_self x xs)
    have hxs : '\n' ∉ xs := fun hm => h (List.mem_cons_of_mem x hm)
    simp only [List.cons_append, framerAux, if_neg hx]
    refine Eq.trans (framerAux_split xs (acc ++ [x]) b hxs) ?_
    simp [List.append_assoc]

lemma processPending_no_nl (c : List Char) (h : '\n' ∉ c) :
    processPending c = ([], c) := by
  unfold processPending
  simpa using framerAux_no_nl c [] h

lemma processPending_split (a b : List Char) (h : '\n' ∉ a) :
    processPending (a ++ '\n' :: b)
      = (if a = [] then (processPending b).1 else a :: (processPending b).1,
         (processPending b).2) := by
  unfold processPending
  rw [framerAux_split a [] b h]
  simp

lemma processPending_msg (a b : List Char) (hne : a ≠ []) (h : '\n' ∉ a) :
    processPending (a ++ '\n' :: b)
      = (a :: (processPending b).1, (processPending b).2) := by
  rw [processPending_split a b h, if_neg hne]

/-- C5: the framing loop of `handle_mcp_connection` dispatches exactly the
newline-delimited messages in arrival order — two messages in one read come
out as two dispatches in order; a message split over two reads is
reassembled and dispatched once; bytes after the last delimiter are kept
and prefixed to the next chunk; and empty lines are skipped. The length
bounds keep the inputs inside the `strncat` capacity of the 4096-byte
buffer, within which the source does not truncate. -/
theorem framer_dispatch (m1 m2 tail c1 c2 : List Char)
    (hm1 : '\n' ∉ m1) (hm1ne : m1 ≠ []) (hm2 : '\n' ∉ m2) (hm2ne : m2 ≠ [])
    (htail : '\n' ∉ tail) :
    (m1.length + m2.length + 2 ≤ 4095 →
      feedChunk [] (m1 ++ '\n' :: (m2 ++ ['\n'])) = ([m1, m2], []))
    ∧ ('\n' ∉ c1 → c1 ++ c2 = m1 ++ ['\n'] → c1.length ≤ 4095 →
        c2.length + c1.length ≤ 4095 →
      feedChunks [] [c1, c2] = ([m1], []))
    ∧ (m1.length + 1 + tail.length ≤ 4095 → tail.length + m2.length + 1 ≤ 4095 →
      feedChunk [] (m1 ++ '\n' :: tail) = ([m1], tail)
      ∧ feedChunk tail (m2 ++ ['\n']) = ([tail ++ m2], []))
    ∧ (m1.length + 2 ≤ 4095 →
      feedChunk [] ('\n' :: (m1 ++ ['\n'])) = ([m1], [])) := by
  refine ⟨?_, ?_, ?_, ?_⟩
  · intro hsz
    unfold feedChunk
    simp only [MCP_BUFFER_SIZE, List.length_nil, List.nil_append]
    rw [List.take_of_length_le (by simp [List.length_append]; omega)]
    rw [processPending_msg m1 _ hm1ne hm1, processPending_msg m2 [] hm2ne hm2]
    rfl
  · intro hc1 hsplit hl1 hl2
    have h1 : feedChunk [] c1 = ([], c1) := by
      unfold feedChunk
      simp only [MCP_BUFFER_SIZE, List.length_nil, List.nil_append]
      rw [List.take_of_length_le (by omega)]
      exact processPending_no_nl c1 hc1
    have h2 : feedChunk c1 c2 = ([m1], []) := by
      unfold feedChunk
      simp only [MCP_BUFFER_SIZE]
      rw [List.take_of_length_le (by omega)]
      rw [hsplit, processPending_msg m1 [] hm1ne hm1]
      rfl
    simp [feedChunks, h1, h2]
  · intro h1 h2
    constructor
    · unfold feedChunk
      simp only [MCP_BUFFER_SIZE, List.length_nil, List.nil_append]
      rw [List.take_of_length_le (by simp [List.length_append]; omega)]
      rw [processPending_msg m1 tail hm1ne hm1, processPending_no_nl tail htail]
    · unfold feedChunk
      simp only [MCP_BUFFER_SIZE]
      rw [List.take_of_length_le (by simp [List.length_append]; omega)]
      have hassoc : tail ++ (m2 ++ ['\n']) = (tail ++ m2) ++ '\n' :: [] := by
        simp [List.append_assoc]
      have hne : tail ++ m2 ≠ [] := by
        intro he
        exact hm2ne (List.append_eq_nil.mp he).2
      have hnm : '\n' ∉ tail ++ m2 := by
        intro hmem
        rcases List.mem_append.mp hmem with hin | hin
        · exact htail hin
        · exact hm2 hin
      rw [hassoc, processPending_msg (tail ++ m2) [] hne hnm]
      rfl
  · intro hsz
    unfold feedChunk
    simp only [MCP_BUFFER_SIZE, List.length_nil, List.nil_append]
    rw [List.take_of_length_le (by simp [List.length_append]; omega)]
    show processPending ([] ++ '\n' :: (m1 ++ ['\n'])) = ([m1], [])
    rw [processPending_split [] (m1 ++ ['\n']) (by simp), if_pos rfl]
    rw [processPending_msg m1 [] hm1ne hm1]
    rfl

/-- Witness for C5 on concrete bytes: `"a\nb\n"` in one read dispatches
`"a"` then `"b"`; the message `"a"` split as `"a"` then `"\n"` is
dispatched once; `"a\nc"` keeps `"c"` pending and the next read `"b\n"`
dispatches `"cb"`; a leading empty line in `"\na\n"` is skipped. -/
theorem framer_dispatch_witness :
    feedChunk [] (['a'] ++ '\n' :: (['b'] ++ ['\n'])) = ([['a'], ['b']], [])
    ∧ feedChunks [] [['a'], ['\n']] = ([['a']], [])
    ∧ (feedChunk [] (['a'] ++ '\n' :: ['c']) = ([['a']], ['c'])
        ∧ feedChunk ['c'] (['b'] ++ ['\n']) = ([['c', 'b']], []))
    ∧ feedChunk [] ('\n' :: (['a'] ++ ['\n'])) = ([['a']], []) := by
  have h := framer_dispatch ['a'] ['b'] ['c'] ['a'] ['\n']
    (by decide) (by decide) (by decide) (by decide) (by decide)
  exact ⟨h.1 (by decide),
    h.2.1 (by decide) (by decide) (by decide) (by decide),
    h.2.2.1 (by decide) (by decide),
    h.2.2.2 (by decide)⟩

end McpServer
